import Mathlib

/-!
Verification of the reminders-to-obsidian sync engine.

The Python sources operate on plain text: documents are strings, sections are
located by literal marker substrings, and the sync protocol is
fetch → render → patch → write → verify → acknowledge.  We embed the relevant
functions over `Str := List Char` (Python `str`), with the effectful
environment (file reads after each write, AppleScript results) supplied as
explicit oracle parameters, and the effects performed (writes, acknowledge
requests) collected as explicit traces in the result.
-/

/-- Python strings, embedded as lists of characters. -/
abbrev Str := List Char

/-- `leadsWith t s` is Python `s.startswith(t)`: `t` occurs at the start of `s`. -/
def leadsWith : Str → Str → Bool
  | [], _ => true
  | _ :: _, [] => false
  | a :: t, b :: s => a = b && leadsWith t s

/-- Python `hay.find(needle)`: index of the first occurrence, `none` for `-1`. -/
def strFind (hay needle : Str) : Option Nat :=
  match hay with
  | [] => if leadsWith needle [] then some 0 else none
  | c :: rest =>
    if leadsWith needle (c :: rest) then some 0
    else (strFind rest needle).map (fun n => n + 1)

/-- Python `hay.find(needle, start)`: search starting at index `start`. -/
def findFromIdx (hay needle : Str) (start : Nat) : Option Nat :=
  (strFind (hay.drop start) needle).map (fun n => n + start)

/-- Python `needle in hay`. -/
def containsSub (hay needle : Str) : Bool :=
  (strFind hay needle).isSome

/-- The whitespace characters stripped by Python `str.strip()`. -/
def isPySpace (c : Char) : Bool :=
  c = ' ' || c = '\t' || c = '\n' || c = '\r' || c = '\x0b' || c = '\x0c'

/-- Python `s.strip()`. -/
def strip (s : Str) : Str :=
  ((s.dropWhile isPySpace).reverse.dropWhile isPySpace).reverse

/-- Python `s.split(sep)` for a single-character separator `'\n'`. -/
def splitNl : Str → List Str
  | [] => [[]]
  | c :: s =>
    if c = '\n' then [] :: splitNl s
    else
      match splitNl s with
      | [] => [[c]]
      | l :: ls => (c :: l) :: ls

/-- Python `"\n".join(parts)`. -/
def joinNl (parts : List Str) : Str :=
  List.intercalate ['\n'] parts

/-- Python `str(n)` for a natural number. -/
def natStr (n : Nat) : Str :=
  (Nat.repr n).data

-- Literal tokens appearing in the sources.
def nlStr : Str := "\n".data
def hhStr : Str := "##".data
def dashesStr : Str := "---".data
def nlDashes : Str := "\n---".data
def nlH2 : Str := "\n## ".data
def h2Str : Str := "## ".data
def gtSpace : Str := "> ".data
def dashSpace : Str := "- ".data
def dotSpace : Str := ". ".data
def dotBoxSpace : Str := ". [ ] ".data
def barStr : Str := "|".data

/-- An item fetched from the external source (`(id, timestamp, note)` in the
Python sources); timestamps are modelled as naturals since only their order
matters. -/
structure Entry where
  rid : Str
  ts : Nat
  note : Str
deriving DecidableEq, Repr

/-- The five format styles of `config.py`. -/
inductive Fmt
  | plain
  | blockquote
  | bullet
  | numbered
  | checkbox
deriving DecidableEq, Repr

/-- `format_entry` from `sync.py` (identical in `server.py`). -/
def format_entry (text : Str) (fmt : Fmt) (index : Nat) : Str :=
  match fmt with
  | .blockquote => gtSpace ++ text
  | .bullet => dashSpace ++ text
  | .numbered => natStr index ++ dotSpace ++ text
  | .checkbox => natStr index ++ dotBoxSpace ++ text
  | .plain => text

/-- Ordering of entries by creation timestamp (the `key=lambda x: x[1]` of
`sorted`). -/
def tsLe : Entry → Entry → Prop := fun a b => a.ts ≤ b.ts

instance : DecidableRel tsLe := fun a b => Nat.decLe a.ts b.ts

instance : IsTotal Entry tsLe := ⟨fun a b => Nat.le_total a.ts b.ts⟩

instance : IsTrans Entry tsLe := ⟨fun _ _ _ h1 h2 => Nat.le_trans h1 h2⟩

/-- Python `sorted(entries, key=lambda x: x[1])`: a stable sort ascending by
creation timestamp. -/
def sortByTs (l : List Entry) : List Entry :=
  List.insertionSort tsLe l

/-- The `for i, (rid, ts, note) in enumerate(sorted_entries, 1)` render loop of
`sync_list`. -/
def formatLines (fmt : Fmt) : Nat → List Entry → List Str
  | _, [] => []
  | i, e :: es => format_entry e.note fmt i :: formatLines fmt (i + 1) es

/-- `entries_text = "\n".join(formatted_lines) + "\n"` over the
timestamp-sorted batch (`sync.py`, `sync_list`). -/
def syncEntriesText (fmt : Fmt) (entries : List Entry) : Str :=
  joinNl (formatLines fmt 1 (sortByTs entries)) ++ nlStr

/-- `line_end` computation shared by both patchers: end of the marker's line
(index just past the newline, or end of document). -/
def lineEndAfter (content : Str) (pos : Nat) : Nat :=
  match findFromIdx content nlStr pos with
  | none => content.length
  | some i => i + 1

/-- Insertion position for a header (`##`) marker: before the next `"\n---"`
or `"\n## "`, whichever comes first; just after the marker line when neither
occurs (cf. `sync.py` lines 196-207). -/
def headerInsertPos (content : Str) (line_end : Nat) : Nat :=
  let rest := content.drop line_end
  match strFind rest nlDashes, strFind rest nlH2 with
  | some d, none => line_end + d + 1
  | some d, some n => if d < n then line_end + d + 1 else line_end + n + 1
  | none, some n => line_end + n + 1
  | none, none => line_end

/-- `insert_at_marker` from `sync.py`: for a field marker the entries text is
always inserted directly after the marker line. -/
def insert_at_marker (content marker entries_text : Str) : Option Str :=
  match strFind content marker with
  | none => none
  | some mpos =>
    let line_end := lineEndAfter content mpos
    if leadsWith hhStr marker then
      let ipos := headerInsertPos content line_end
      some (content.take ipos ++ entries_text ++ content.drop ipos)
    else
      some (content.take line_end ++ entries_text ++ content.drop line_end)

/-- The closed placeholder set of `server.py` line 92. -/
def isPlaceholder (l : Str) : Bool :=
  l = ">".data || l = "-".data || l = "1.".data || l = "2.".data ||
    l = "3.".data || l = []

/-- `insert_at_marker` from `server.py`: same header handling (plus an added
newline), but a field marker whose following line is a bare placeholder has
that single line replaced. -/
def server_insert_at_marker (content marker entry_text : Str) : Option Str :=
  match strFind content marker with
  | none => none
  | some mpos =>
    let line_end := lineEndAfter content mpos
    if leadsWith hhStr marker then
      let ipos := headerInsertPos content line_end
      some (content.take ipos ++ entry_text ++ nlStr ++ content.drop ipos)
    else
      let rest := content.drop line_end
      let first_line_end :=
        match strFind rest nlStr with
        | none => rest.length
        | some i => i
      let first_line := strip (rest.take first_line_end)
      if isPlaceholder first_line then
        some (content.take line_end ++ entry_text ++ rest.drop first_line_end)
      else
        some (content.take line_end ++ entry_text ++ nlStr ++ content.drop line_end)

/-- `RETRY_ATTEMPTS` from `config.py`. -/
def RETRY_ATTEMPTS : Nat := 3

/-- Oracle for the effectful behaviour of one sync run: whether the
`write_text` of a given attempt succeeds (an exception models a raised
`OSError`), and what the verification `read_text` of that attempt returns
(the backing store may not reflect the write yet). -/
structure WriteEnv where
  writeOk : Nat → Bool
  reread : Nat → Str

/-- The write-verify-retry loop of `sync_list` (`sync.py` lines 265-291).
`attempt` is the 1-based attempt counter, `fuel` the structural bound
(`RETRY_ATTEMPTS` at the top call, so the `fuel = 0` case is unreachable).
Returns the loop outcome together with the trace of successful
`write_text` calls as `(attempt, content written)` pairs.  Note that the
source writes the same `new_content` on every attempt: the re-read taken
before a retry (line 279) is assigned to `content` but never used, so the
patch is not recomputed. -/
def writeRetryLoop (env : WriteEnv) (notes : List Str) (newContent : Str) :
    Nat → Nat → Bool × List (Nat × Str)
  | _, 0 => (false, [])
  | attempt, fuel + 1 =>
    if env.writeOk attempt then
      if notes.filter (fun n => !containsSub (env.reread attempt) n) = [] then
        (true, [(attempt, newContent)])
      else if attempt < RETRY_ATTEMPTS then
        ((writeRetryLoop env notes newContent (attempt + 1) fuel).1,
          (attempt, newContent) :: (writeRetryLoop env notes newContent (attempt + 1) fuel).2)
      else (false, [(attempt, newContent)])
    else
      if attempt < RETRY_ATTEMPTS then
        writeRetryLoop env notes newContent (attempt + 1) fuel
      else (false, [])

/-- Observable outcome of one `sync_list` run: the returned
`(success, count_synced)` pair, the trace of file writes, and the ids passed
to the acknowledge call (`mark_reminders_complete`), empty when that call was
never made. -/
structure SyncResult where
  success : Bool
  count : Nat
  writes : List (Nat × Str)
  ackRequested : List Str
deriving DecidableEq, Repr

/-- `sync_list` from `sync.py`: fetch result `entries` is passed in; the daily
note's existence and initial content, the write/read behaviour, and the
acknowledge outcome are oracle parameters. -/
def sync_list (entries : List Entry) (noteExists : Bool) (content marker : Str)
    (fmt : Fmt) (env : WriteEnv) (ackOk : Bool) : SyncResult :=
  if entries = [] then ⟨true, 0, [], []⟩
  else if noteExists = false then ⟨false, 0, [], []⟩
  else
    match insert_at_marker content marker (syncEntriesText fmt entries) with
    | none => ⟨false, 0, [], []⟩
    | some newContent =>
      let notes := (sortByTs entries).map (fun e => e.note)
      let ids := (sortByTs entries).map (fun e => e.rid)
      let lr := writeRetryLoop env notes newContent 1 RETRY_ATTEMPTS
      if lr.1 then
        if ackOk then ⟨true, ids.length, lr.2, ids⟩
        else ⟨false, ids.length, lr.2, ids⟩
      else ⟨false, 0, lr.2, []⟩

/-- The shared tail of `main` in `concerns.py` (lines 300-316) and
`priorities.py` (lines 314-330): exit code and the ids passed to the
acknowledge call, given the `(success, written_ids)` of the update step and
the acknowledge outcome. -/
def script_main_exit (updSuccess : Bool) (writtenIds : List Str) (ackOk : Bool) :
    Nat × List Str :=
  if updSuccess = false then (1, [])
  else if writtenIds = [] then (0, [])
  else if ackOk then (0, writtenIds) else (1, writtenIds)

-- ### The bounded (three-slot) priorities section, `priorities.py`

def priMarker : Str := "**Three Priorities:**".data
def slotPat : Str := ". - [".data
def priBox : Str := ". - [ ] ".data
def padTok : Str := ". - [ ]".data

/-- One rendered slot line, `f"{i}. - [ ] {note}"` (`priorities.py` line 206). -/
def priorityLine (i : Nat) (note : Str) : Str :=
  natStr i ++ priBox ++ note

/-- A line belonging to the owned slot span: blank, or a numbered checkbox
line (`priorities.py` line 232). -/
def isSlotLine (l : Str) : Bool :=
  let s := strip l
  s.isEmpty ||
    (decide (2 ≤ s.length) &&
      (match s with | c :: _ => c.isDigit | [] => false) &&
      containsSub s slotPat)

/-- The numbered checkbox list built from the (at most three) accepted
entries (`priorities.py` lines 204-206). -/
def buildNumbered (i : Nat) : List Entry → List Str
  | [] => []
  | e :: es => priorityLine i e.note :: buildNumbered (i + 1) es

/-- Padding `f"{i}. - [ ]"` for `i in range(len(sorted_entries)+1, 4)`
(`priorities.py` lines 209-210). -/
def padFrom (start : Nat) : List Str :=
  (List.range' start (4 - start)).map (fun j => natStr j ++ padTok)

/-- The full three-slot rendering of the accepted batch. -/
def prioritiesLines (accepted : List Entry) : List Str :=
  buildNumbered 1 accepted ++ padFrom (accepted.length + 1)

/-- The pure patch core of `update_priorities_in_daily_note`
(`priorities.py` lines 199-247): from the fetched entries and the current
document produce the new document and the written ids, or `none` when the
marker is absent. -/
def update_priorities_patch (entries : List Entry) (content : Str) :
    Option (Str × List Str) :=
  let accepted := (sortByTs entries).take 3
  let written := accepted.map (fun e => e.rid)
  let ptext := joinNl (prioritiesLines accepted)
  match strFind content priMarker with
  | none => none
  | some mpos =>
    let mend := mpos + priMarker.length
    let rest := content.drop mend
    let lines := splitNl rest
    let endIdx := (lines.takeWhile isSlotLine).length
    let after := joinNl (lines.drop endIdx)
    let needNl := !after.isEmpty && !leadsWith nlStr after && !leadsWith dashesStr after
    some (content.take mend ++ nlStr ++ ptext ++ nlStr ++
      (if needNl then nlStr else []) ++ after, written)

-- ### The dispatcher, `dispatcher.py`

def alwaysS : Str := "always".data

/-- Static per-list configuration, reduced to the field the dispatcher
consults. -/
structure ListCfg where
  schedule : Str
deriving DecidableEq, Repr

/-- `LISTS[list_key]` lookup; `none` models `list_key not in LISTS`. -/
def lookupCfg : List (Str × ListCfg) → Str → Option ListCfg
  | [], _ => none
  | (k, c) :: rest, key => if k = key then some c else lookupCfg rest key

/-- Counts returned by `run_lists` plus the trace of keys for which
`sync_list` was actually invoked (hence for which any fetch, write or
acknowledge could happen at all). -/
structure RunOutcome where
  succCount : Nat
  failCount : Nat
  synced : List Str
deriving DecidableEq, Repr

/-- `run_lists` from `dispatcher.py` (lines 116-156).  `processed` is the set
of keys recorded in today's state file; `syncOut` is the oracle for the
`(success, count)` a `sync_list` invocation would return.  A successful
non-empty sync of a non-"always" list marks the key processed for later
iterations (`mark_list_processed`). -/
def run_lists (known : List (Str × ListCfg)) (force : Bool)
    (syncOut : Str → Bool × Nat) : List Str → List Str → RunOutcome
  | _, [] => ⟨0, 0, []⟩
  | processed, k :: ks =>
    match lookupCfg known k with
    | none =>
      ⟨(run_lists known force syncOut processed ks).succCount,
        (run_lists known force syncOut processed ks).failCount + 1,
        (run_lists known force syncOut processed ks).synced⟩
    | some cfg =>
      if force = false ∧ cfg.schedule ≠ alwaysS ∧ k ∈ processed then
        ⟨(run_lists known force syncOut processed ks).succCount + 1,
          (run_lists known force syncOut processed ks).failCount,
          (run_lists known force syncOut processed ks).synced⟩
      else if (syncOut k).1 then
        ⟨(run_lists known force syncOut
            (if 0 < (syncOut k).2 ∧ cfg.schedule ≠ alwaysS then k :: processed
              else processed) ks).succCount + 1,
          (run_lists known force syncOut
            (if 0 < (syncOut k).2 ∧ cfg.schedule ≠ alwaysS then k :: processed
              else processed) ks).failCount,
          k :: (run_lists known force syncOut
            (if 0 < (syncOut k).2 ∧ cfg.schedule ≠ alwaysS then k :: processed
              else processed) ks).synced⟩
      else
        ⟨(run_lists known force syncOut processed ks).succCount,
          (run_lists known force syncOut processed ks).failCount + 1,
          k :: (run_lists known force syncOut processed ks).synced⟩

-- ### Fetching, `get_reminders` from `sync.py`

/-- Python `s.split("|", 2)`. -/
def splitBar2 (s : Str) : List Str :=
  match strFind s barStr with
  | none => [s]
  | some i =>
    let a := s.take i
    let r := s.drop (i + 1)
    match strFind r barStr with
    | none => [a, r]
    | some j => [a, r.take j, r.drop (j + 1)]

/-- Python `s.replace("Z", "+00:00")`. -/
def replaceZ : Str → Str
  | [] => []
  | c :: s =>
    if c = 'Z' then ("+00:00").data ++ replaceZ s
    else c :: replaceZ s

/-- One iteration of the parse loop of `get_reminders` (`sync.py` lines
115-130); `parseTs` is the oracle for `datetime.fromisoformat`. -/
def parseReminderLine (parseTs : Str → Option Nat) (line : Str) : Option Entry :=
  let l := strip line
  if l = [] then none
  else
    match splitBar2 l with
    | [rid, tsStr, note] =>
      match parseTs (replaceZ (strip tsStr)) with
      | some ts => some ⟨strip rid, ts, strip note⟩
      | none => none
    | _ => none

/-- `get_reminders` from `sync.py` (lines 105-132): when the AppleScript run
fails the function returns the empty list; otherwise the output lines are
parsed, skipping blank, malformed and unparsable entries. -/
def get_reminders (fetchOk : Bool) (output : Str)
    (parseTs : Str → Option Nat) : List Entry :=
  if fetchOk = false then []
  else (splitNl output).filterMap (parseReminderLine parseTs)

-- ### Concrete instances used by witnesses and counterexamples

def exEntry1 : Entry := ⟨("r1").data, 0, ("pay rent").data⟩

def exDocW : Str := ("**W:**\nrest\n").data

def exMarkerW : Str := ("**W:**").data

/-- The patched document `insert_at_marker` produces for `exDocW` with the
single blockquote entry `exEntry1`. -/
def exPatchedW : Str := ("**W:**\n> pay rent\nrest\n").data

/-- A re-read result that does not contain the written note. -/
def exChanged : Str := ("**W:**\nCHANGED\n").data

/-- Writes always land; every re-read shows the patched content. -/
def envGood : WriteEnv := ⟨fun _ => true, fun _ => exPatchedW⟩

/-- The first re-read misses the write; later re-reads show it. -/
def envFlaky : WriteEnv :=
  ⟨fun _ => true, fun k => if k = 1 then exChanged else exPatchedW⟩

/-- No re-read ever shows the write. -/
def envBad : WriteEnv := ⟨fun _ => true, fun _ => exChanged⟩

def entA : Entry := ⟨("a").data, 1, ("alpha").data⟩

def entB : Entry := ⟨("b").data, 2, ("beta").data⟩

def entC : Entry := ⟨("c").data, 3, ("gamma").data⟩

def priDoc0 : Str :=
  ("**Three Priorities:**\n1. - [ ]\n2. - [ ]\n3. - [ ]\n\n---\nrest").data

def priDoc1 : Str :=
  ("**Three Priorities:**\n1. - [ ] alpha\n2. - [ ] beta\n3. - [ ]\n---\nrest").data

def priDoc2 : Str :=
  ("**Three Priorities:**\n1. - [ ] gamma\n2. - [ ]\n3. - [ ]\n---\nrest").data


-- ### Helper lemmas

theorem sortByTs_perm (l : List Entry) : List.Perm (sortByTs l) l :=
  List.perm_insertionSort tsLe l

theorem sortByTs_sorted (l : List Entry) : List.Sorted tsLe (sortByTs l) :=
  List.sorted_insertionSort tsLe l

theorem sortByTs_length (l : List Entry) : (sortByTs l).length = l.length :=
  (sortByTs_perm l).length_eq

theorem mem_sortByTs {e : Entry} {l : List Entry} : e ∈ sortByTs l ↔ e ∈ l :=
  (sortByTs_perm l).mem_iff

/-- Splicing text into an append at its boundary. -/
theorem splice_at_boundary (xs ys t : Str) (n : Nat) (h : xs.length = n) :
    (xs ++ ys).take n ++ t ++ (xs ++ ys).drop n = xs ++ t ++ ys := by
  rw [List.take_left' h, List.drop_left' h]

theorem filter_nil_all_false {α : Type} {p : α → Bool} {l : List α}
    (h : l.filter p = []) : ∀ a ∈ l, p a = false := by
  intro a ha
  have := List.filter_eq_nil_iff.mp h a ha
  simpa using this

/-- One retry step: a successful write whose verification finds every note. -/
theorem writeRetryLoop_step_ok (env : WriteEnv) (notes : List Str) (nc : Str)
    (a fuel : Nat) (hw : env.writeOk a = true)
    (hm : notes.filter (fun n => !containsSub (env.reread a) n) = []) :
    writeRetryLoop env notes nc a (fuel + 1) = (true, [(a, nc)]) := by
  simp [writeRetryLoop, hw, hm]

/-- One retry step: write succeeds, verification fails, attempts remain. -/
theorem writeRetryLoop_step_fail (env : WriteEnv) (notes : List Str) (nc : Str)
    (a fuel : Nat) (hw : env.writeOk a = true)
    (hm : notes.filter (fun n => !containsSub (env.reread a) n) ≠ [])
    (hlt : a < RETRY_ATTEMPTS) :
    writeRetryLoop env notes nc a (fuel + 1)
      = ((writeRetryLoop env notes nc (a + 1) fuel).1,
          (a, nc) :: (writeRetryLoop env notes nc (a + 1) fuel).2) := by
  simp [writeRetryLoop, hw, hm, hlt]

/-- One retry step: write succeeds, verification fails on the final attempt. -/
theorem writeRetryLoop_step_fail_last (env : WriteEnv) (notes : List Str) (nc : Str)
    (a fuel : Nat) (hw : env.writeOk a = true)
    (hm : notes.filter (fun n => !containsSub (env.reread a) n) ≠ [])
    (hge : ¬ a < RETRY_ATTEMPTS) :
    writeRetryLoop env notes nc a (fuel + 1) = (false, [(a, nc)]) := by
  simp [writeRetryLoop, hw, hm, hge]

/-- Every successful write performed by the retry loop writes the same
originally patched content. -/
theorem writeRetryLoop_writes_newContent (env : WriteEnv) (notes : List Str)
    (nc : Str) : ∀ fuel a p, p ∈ (writeRetryLoop env notes nc a fuel).2 → p.2 = nc := by
  intro fuel
  induction fuel with
  | zero => intro a p hp; simp [writeRetryLoop] at hp
  | succ n ih =>
    intro a p hp
    simp only [writeRetryLoop] at hp
    split at hp
    · split at hp
      · simp at hp; simp [hp]
      · split at hp
        · simp at hp
          rcases hp with hp | hp
          · simp [hp]
          · exact ih (a + 1) p hp
        · simp at hp; simp [hp]
    · split at hp
      · exact ih (a + 1) p hp
      · simp at hp

/-- The retry loop performs at most `fuel` write attempts. -/
theorem writeRetryLoop_writes_length (env : WriteEnv) (notes : List Str)
    (nc : Str) : ∀ fuel a, (writeRetryLoop env notes nc a fuel).2.length ≤ fuel := by
  intro fuel
  induction fuel with
  | zero => intro a; simp [writeRetryLoop]
  | succ n ih =>
    intro a
    simp only [writeRetryLoop]
    split
    · split
      · simp
      · split
        · simpa using ih (a + 1)
        · simp
    · split
      · exact Nat.le_trans (ih (a + 1)) (Nat.le_succ n)
      · simp

/-- A successful retry loop contains a verified attempt: some attempt both
wrote successfully and found every note present in the re-read content. -/
theorem writeRetryLoop_ok_verified (env : WriteEnv) (notes : List Str)
    (nc : Str) : ∀ fuel a, (writeRetryLoop env notes nc a fuel).1 = true →
      ∃ k, a ≤ k ∧ k < a + fuel ∧ env.writeOk k = true ∧
        notes.filter (fun n => !containsSub (env.reread k) n) = [] := by
  intro fuel
  induction fuel with
  | zero => intro a h; simp [writeRetryLoop] at h
  | succ n ih =>
    intro a h
    simp only [writeRetryLoop] at h
    split at h
    · rename_i hw
      split at h
      · rename_i hm
        exact ⟨a, Nat.le_refl a, by omega, hw, hm⟩
      · split at h
        · simp only at h
          obtain ⟨k, hk1, hk2, hk3, hk4⟩ := ih (a + 1) h
          exact ⟨k, by omega, by omega, hk3, hk4⟩
        · simp at h
    · split at h
      · obtain ⟨k, hk1, hk2, hk3, hk4⟩ := ih (a + 1) h
        exact ⟨k, by omega, by omega, hk3, hk4⟩
      · simp at h

/-- A field-marker patch in `sync.py` always splices the entries text in
directly after the marker line, whatever follows. -/
theorem field_insert_after_line (pre M tail t : Str)
    (hM : leadsWith hhStr M = false)
    (h1 : strFind (pre ++ M ++ nlStr ++ tail) M = some pre.length)
    (h2 : findFromIdx (pre ++ M ++ nlStr ++ tail) nlStr pre.length
      = some (pre.length + M.length)) :
    insert_at_marker (pre ++ M ++ nlStr ++ tail) M t
      = some (pre ++ M ++ nlStr ++ t ++ tail) := by
  have hc : pre ++ M ++ nlStr ++ tail = (pre ++ M ++ nlStr) ++ tail := by
    simp [List.append_assoc]
  have hlen : (pre ++ M ++ nlStr).length = pre.length + M.length + 1 := by
    simp [nlStr]; omega
  simp only [insert_at_marker, h1, lineEndAfter, h2, hM, Bool.false_eq_true, if_false]
  rw [hc, List.take_left' hlen, List.drop_left' hlen]

/-- A header-marker patch on a section terminated by a horizontal divider
(any `"\n## "` occurrence lying strictly beyond the divider) splices the new
text in immediately before the divider. -/
theorem header_insert_before_divider (pre M mid post t : Str)
    (hM : leadsWith hhStr M = true)
    (h1 : strFind (pre ++ M ++ nlStr ++ mid ++ nlStr ++ dashesStr ++ post) M
      = some pre.length)
    (h2 : findFromIdx (pre ++ M ++ nlStr ++ mid ++ nlStr ++ dashesStr ++ post)
      nlStr pre.length = some (pre.length + M.length))
    (h3 : strFind (mid ++ nlStr ++ dashesStr ++ post) nlDashes = some mid.length)
    (h4 : ∀ n, strFind (mid ++ nlStr ++ dashesStr ++ post) nlH2 = some n →
      mid.length < n) :
    insert_at_marker (pre ++ M ++ nlStr ++ mid ++ nlStr ++ dashesStr ++ post) M t
      = some (pre ++ M ++ nlStr ++ mid ++ nlStr ++ t ++ dashesStr ++ post) := by
  have hlen1 : (pre ++ M ++ nlStr).length = pre.length + M.length + 1 := by
    simp [nlStr]; omega
  have hdrop : (pre ++ M ++ nlStr ++ mid ++ nlStr ++ dashesStr ++ post).drop
      (pre.length + M.length + 1) = mid ++ nlStr ++ dashesStr ++ post := by
    have hc : pre ++ M ++ nlStr ++ mid ++ nlStr ++ dashesStr ++ post
        = (pre ++ M ++ nlStr) ++ (mid ++ nlStr ++ dashesStr ++ post) := by
      simp [List.append_assoc]
    rw [hc, List.drop_left' hlen1]
  have hlen2 : (pre ++ M ++ nlStr ++ mid ++ nlStr).length
      = pre.length + M.length + 1 + mid.length + 1 := by
    simp [nlStr]; omega
  have hc2 : pre ++ M ++ nlStr ++ mid ++ nlStr ++ dashesStr ++ post
      = (pre ++ M ++ nlStr ++ mid ++ nlStr) ++ (dashesStr ++ post) := by
    simp [List.append_assoc]
  cases hh2 : strFind (mid ++ nlStr ++ dashesStr ++ post) nlH2 with
  | none =>
    simp only [insert_at_marker, h1, lineEndAfter, h2, hM, if_true,
      headerInsertPos, hdrop, h3, hh2]
    rw [hc2, List.take_left' hlen2, List.drop_left' hlen2]
    simp [List.append_assoc]
  | some n =>
    have hlt : mid.length < n := h4 n hh2
    simp only [insert_at_marker, h1, lineEndAfter, h2, hM, if_true,
      headerInsertPos, hdrop, h3, hh2]
    rw [if_pos hlt, hc2, List.take_left' hlen2, List.drop_left' hlen2]
    simp [List.append_assoc]

/-- A header-marker patch on a section terminated by a following `"## "`
heading (any divider lying at or beyond the heading) splices the new text in
immediately before that heading. -/
theorem header_insert_before_heading (pre M mid post t : Str)
    (hM : leadsWith hhStr M = true)
    (h1 : strFind (pre ++ M ++ nlStr ++ mid ++ nlStr ++ h2Str ++ post) M
      = some pre.length)
    (h2 : findFromIdx (pre ++ M ++ nlStr ++ mid ++ nlStr ++ h2Str ++ post)
      nlStr pre.length = some (pre.length + M.length))
    (h3 : ∀ d, strFind (mid ++ nlStr ++ h2Str ++ post) nlDashes = some d →
      ¬ d < mid.length)
    (h4 : strFind (mid ++ nlStr ++ h2Str ++ post) nlH2 = some mid.length) :
    insert_at_marker (pre ++ M ++ nlStr ++ mid ++ nlStr ++ h2Str ++ post) M t
      = some (pre ++ M ++ nlStr ++ mid ++ nlStr ++ t ++ h2Str ++ post) := by
  have hlen1 : (pre ++ M ++ nlStr).length = pre.length + M.length + 1 := by
    simp [nlStr]; omega
  have hdrop : (pre ++ M ++ nlStr ++ mid ++ nlStr ++ h2Str ++ post).drop
      (pre.length + M.length + 1) = mid ++ nlStr ++ h2Str ++ post := by
    have hc : pre ++ M ++ nlStr ++ mid ++ nlStr ++ h2Str ++ post
        = (pre ++ M ++ nlStr) ++ (mid ++ nlStr ++ h2Str ++ post) := by
      simp [List.append_assoc]
    rw [hc, List.drop_left' hlen1]
  have hlen2 : (pre ++ M ++ nlStr ++ mid ++ nlStr).length
      = pre.length + M.length + 1 + mid.length + 1 := by
    simp [nlStr]; omega
  have hc2 : pre ++ M ++ nlStr ++ mid ++ nlStr ++ h2Str ++ post
      = (pre ++ M ++ nlStr ++ mid ++ nlStr) ++ (h2Str ++ post) := by
    simp [List.append_assoc]
  cases hd : strFind (mid ++ nlStr ++ h2Str ++ post) nlDashes with
  | none =>
    simp only [insert_at_marker, h1, lineEndAfter, h2, hM, if_true,
      headerInsertPos, hdrop, hd, h4]
    rw [hc2, List.take_left' hlen2, List.drop_left' hlen2]
    simp [List.append_assoc]
  | some d =>
    have hge : ¬ d < mid.length := h3 d hd
    simp only [insert_at_marker, h1, lineEndAfter, h2, hM, if_true,
      headerInsertPos, hdrop, hd, h4]
    rw [if_neg hge, hc2, List.take_left' hlen2, List.drop_left' hlen2]
    simp [List.append_assoc]

/-- A header-marker patch on a section with neither a divider nor a following
`"## "` heading splices the new text in directly after the marker line — the
start of the section, not the end of the document. -/
theorem header_insert_no_boundary (pre M tail t : Str)
    (hM : leadsWith hhStr M = true)
    (h1 : strFind (pre ++ M ++ nlStr ++ tail) M = some pre.length)
    (h2 : findFromIdx (pre ++ M ++ nlStr ++ tail) nlStr pre.length
      = some (pre.length + M.length))
    (h3 : strFind tail nlDashes = none)
    (h4 : strFind tail nlH2 = none) :
    insert_at_marker (pre ++ M ++ nlStr ++ tail) M t
      = some (pre ++ M ++ nlStr ++ t ++ tail) := by
  have hlen1 : (pre ++ M ++ nlStr).length = pre.length + M.length + 1 := by
    simp [nlStr]; omega
  have hc : pre ++ M ++ nlStr ++ tail = (pre ++ M ++ nlStr) ++ tail := by
    simp [List.append_assoc]
  have hdrop : (pre ++ M ++ nlStr ++ tail).drop (pre.length + M.length + 1) = tail := by
    rw [hc, List.drop_left' hlen1]
  simp only [insert_at_marker, h1, lineEndAfter, h2, hM, if_true,
    headerInsertPos, hdrop, h3, h4]
  rw [hc, List.take_left' hlen1]

/-- The `server.py` field-marker patch: the placeholder line after the marker
is replaced, any other line is pushed down. -/
theorem server_field_patch (pre M line1 rest2 t : Str)
    (hM : leadsWith hhStr M = false)
    (h1 : strFind (pre ++ M ++ nlStr ++ line1 ++ nlStr ++ rest2) M = some pre.length)
    (h2 : findFromIdx (pre ++ M ++ nlStr ++ line1 ++ nlStr ++ rest2) nlStr pre.length
      = some (pre.length + M.length))
    (h3 : strFind (line1 ++ nlStr ++ rest2) nlStr = some line1.length) :
    server_insert_at_marker (pre ++ M ++ nlStr ++ line1 ++ nlStr ++ rest2) M t
      = some (if isPlaceholder (strip line1)
          then pre ++ M ++ nlStr ++ t ++ nlStr ++ rest2
          else pre ++ M ++ nlStr ++ t ++ nlStr ++ line1 ++ nlStr ++ rest2) := by
  have hlen1 : (pre ++ M ++ nlStr).length = pre.length + M.length + 1 := by
    simp [nlStr]; omega
  have hc : pre ++ M ++ nlStr ++ line1 ++ nlStr ++ rest2
      = (pre ++ M ++ nlStr) ++ (line1 ++ nlStr ++ rest2) := by
    simp [List.append_assoc]
  have hdrop : (pre ++ M ++ nlStr ++ line1 ++ nlStr ++ rest2).drop
      (pre.length + M.length + 1) = line1 ++ nlStr ++ rest2 := by
    rw [hc, List.drop_left' hlen1]
  have htake1 : (line1 ++ nlStr ++ rest2).take line1.length = line1 := by
    have : line1 ++ nlStr ++ rest2 = line1 ++ (nlStr ++ rest2) := by
      simp [List.append_assoc]
    rw [this, List.take_left' rfl]
  have hdrop1 : (line1 ++ nlStr ++ rest2).drop line1.length = nlStr ++ rest2 := by
    have : line1 ++ nlStr ++ rest2 = line1 ++ (nlStr ++ rest2) := by
      simp [List.append_assoc]
    rw [this, List.drop_left' rfl]
  simp only [server_insert_at_marker, h1, lineEndAfter, h2, hM,
    Bool.false_eq_true, if_false, hdrop, h3, htake1, hdrop1]
  by_cases hpl : isPlaceholder (strip line1) = true
  · simp only [hpl, if_true]
    rw [hc, List.take_left' hlen1]
    simp [List.append_assoc]
  · have hpl' : isPlaceholder (strip line1) = false := by
      revert hpl; cases isPlaceholder (strip line1) <;> simp
    simp only [hpl', Bool.false_eq_true, if_false]
    rw [hc, List.take_left' hlen1]
    simp [List.append_assoc]

-- ### Claim theorems

/-- C8 (counterexample): the bounded priorities renderer at index 1 on text
"x" produces "1. - [ ] x", which matches neither of the claim's checkbox
variants "- [ ] x" and "1. [ ] x". -/
theorem c8_counterexample :
    priorityLine 1 (("x").data) = ("1. - [ ] x").data ∧
      priorityLine 1 (("x").data) ≠ ("- [ ] x").data ∧
      priorityLine 1 (("x").data) ≠ ("1. [ ] x").data := by
  decide

/-- C8 (amended): the generic renderer obeys the exact prefix grammar —
plain is the unchanged text, blockquote prepends "> ", bullet "- ", numbered
"{index}. ", and checkbox always "{index}. [ ] " (there is no configured
bare "- [ ] " variant); the bounded priorities section uses its own
"{index}. - [ ] " prefix instead. -/
theorem c8_renderer_prefix_grammar (text : Str) (index : Nat) :
    format_entry text Fmt.plain index = text ∧
      format_entry text Fmt.blockquote index = ("> ").data ++ text ∧
      format_entry text Fmt.bullet index = ("- ").data ++ text ∧
      format_entry text Fmt.numbered index = natStr index ++ (". ").data ++ text ∧
      format_entry text Fmt.checkbox index = natStr index ++ (". [ ] ").data ++ text ∧
      priorityLine index text = natStr index ++ (". - [ ] ").data ++ text :=
  ⟨rfl, rfl, rfl, rfl, rfl, rfl⟩

/-- C10: when the underlying fetch fails, `get_reminders` returns the empty
list, so `sync_list` returns success with zero items, performs no write and
requests no acknowledgement — exactly the same observable outcome as a fetch
that succeeds with empty output; no fetch-failure outcome exists. -/
theorem c10_fetch_failure_looks_empty (output : Str) (parseTs : Str → Option Nat)
    (noteExists : Bool) (content marker : Str) (fmt : Fmt) (env : WriteEnv)
    (ackOk : Bool) :
    get_reminders false output parseTs = [] ∧
      sync_list (get_reminders false output parseTs) noteExists content marker
        fmt env ackOk = ⟨true, 0, [], []⟩ ∧
      sync_list (get_reminders false output parseTs) noteExists content marker
          fmt env ackOk
        = sync_list (get_reminders true [] parseTs) noteExists content marker
            fmt env ackOk := by
  refine ⟨rfl, ?_, ?_⟩
  · simp [sync_list, get_reminders]
  · have h : get_reminders true [] parseTs = [] := rfl
    rw [h]
    rfl

/-- C7: patching a document that does not contain the marker returns
NOT_FOUND (`none`), and `sync_list` surfaces this as a hard failure: success
is false, no write is performed (so the document is untouched) and no
acknowledge is requested. -/
theorem c7_marker_not_found_failure (entries : List Entry)
    (content marker t : Str) (fmt : Fmt) (env : WriteEnv) (ackOk : Bool)
    (hne : entries ≠ []) (hmk : strFind content marker = none) :
    insert_at_marker content marker t = none ∧
      sync_list entries true content marker fmt env ackOk = ⟨false, 0, [], []⟩ := by
  constructor
  · simp [insert_at_marker, hmk]
  · simp [sync_list, hne, insert_at_marker, hmk]

/-- C7 witness: a concrete document lacking the marker. -/
theorem c7_witness :
    insert_at_marker (("nothing here\n").data) exMarkerW (("> x\n").data) = none ∧
      sync_list [exEntry1] true (("nothing here\n").data) exMarkerW
        Fmt.blockquote envGood true = ⟨false, 0, [], []⟩ :=
  c7_marker_not_found_failure [exEntry1] (("nothing here\n").data) exMarkerW
    (("> x\n").data) Fmt.blockquote envGood true (by decide) (by decide)

/-- C5 (counterexample): in `sync.py` a field marker followed by the bare
placeholder line ">" is not replaced — the new content is inserted after the
marker line and the placeholder line survives, contradicting the claimed
replacement behaviour at this concrete input. -/
theorem c5_counterexample :
    insert_at_marker (("**W:**\n>\nrest").data) (("**W:**").data) (("> hi\n").data)
      = some (("**W:**\n> hi\n>\nrest").data) ∧
      (("**W:**\n> hi\n>\nrest").data : Str) ≠ ("**W:**\n> hi\nrest").data := by
  constructor
  · decide
  · decide

/-- C5 (amended): the placeholder behaviour belongs to `server.py` alone:
its patcher replaces a following line stripping to ">", "-", "1.", "2.",
"3." or blank and pushes any other line down; the `sync.py` patcher instead
always inserts directly after the field marker line, leaving an existing
placeholder line in place. -/
theorem c5_field_marker_patch_behaviour :
    (∀ pre M tail t, leadsWith hhStr M = false →
      strFind (pre ++ M ++ nlStr ++ tail) M = some pre.length →
      findFromIdx (pre ++ M ++ nlStr ++ tail) nlStr pre.length
        = some (pre.length + M.length) →
      insert_at_marker (pre ++ M ++ nlStr ++ tail) M t
        = some (pre ++ M ++ nlStr ++ t ++ tail))
    ∧ (∀ pre M line1 rest2 t, leadsWith hhStr M = false →
      strFind (pre ++ M ++ nlStr ++ line1 ++ nlStr ++ rest2) M = some pre.length →
      findFromIdx (pre ++ M ++ nlStr ++ line1 ++ nlStr ++ rest2) nlStr pre.length
        = some (pre.length + M.length) →
      strFind (line1 ++ nlStr ++ rest2) nlStr = some line1.length →
      server_insert_at_marker (pre ++ M ++ nlStr ++ line1 ++ nlStr ++ rest2) M t
        = some (if isPlaceholder (strip line1)
            then pre ++ M ++ nlStr ++ t ++ nlStr ++ rest2
            else pre ++ M ++ nlStr ++ t ++ nlStr ++ line1 ++ nlStr ++ rest2)) :=
  ⟨fun pre M tail t hM h1 h2 => field_insert_after_line pre M tail t hM h1 h2,
   fun pre M line1 rest2 t hM h1 h2 h3 =>
     server_field_patch pre M line1 rest2 t hM h1 h2 h3⟩

/-- C5 witness: both branches instantiated — the sync patcher pushing a
placeholder down, and the server patcher replacing it. -/
theorem c5_witness :
    insert_at_marker (("pre\n").data ++ ("**W:**").data ++ nlStr ++ ((">\nrest").data))
        (("**W:**").data) (("> hi\n").data)
      = some (("pre\n").data ++ ("**W:**").data ++ nlStr ++ ("> hi\n").data
          ++ ((">\nrest").data)) ∧
    server_insert_at_marker (("pre\n").data ++ ("**W:**").data ++ nlStr
        ++ ((">").data) ++ nlStr ++ (("rest").data)) (("**W:**").data) (("> hi").data)
      = some (("pre\n").data ++ ("**W:**").data ++ nlStr ++ ("> hi").data
          ++ nlStr ++ (("rest").data)) := by
  constructor
  · exact c5_field_marker_patch_behaviour.1 (("pre\n").data) (("**W:**").data)
      (((">\nrest").data)) (("> hi\n").data) (by decide) (by decide) (by decide)
  · have h := c5_field_marker_patch_behaviour.2 (("pre\n").data) (("**W:**").data)
      (((">").data)) (("rest").data) (("> hi").data) (by decide) (by decide)
      (by decide) (by decide)
    rw [h]
    decide

/-- C6 (counterexample): with neither a divider nor a following "## "
heading after the header marker, the patcher inserts straight after the
header line, so a second patch lands before the first: patching with "a1"
then "b1" yields "b1" before "a1" — not the claimed cumulative order, and
not insertion at document end. -/
theorem c6_counterexample :
    (insert_at_marker (("## Log\nend\n").data) (("## Log").data) (("a1\n").data)).bind
        (fun d => insert_at_marker d (("## Log").data) (("b1\n").data))
      = some (("## Log\nb1\na1\nend\n").data) ∧
      (("## Log\nb1\na1\nend\n").data : Str) ≠ ("## Log\na1\nb1\nend\n").data := by
  constructor
  · decide
  · decide

/-- C6 (amended): when the header section is terminated by a boundary — the
next horizontal-divider line or the next "## " heading, whichever comes
first — new content is inserted immediately before that boundary, so two
successive patches are cumulative: section content is A then B, nothing
overwritten; when neither boundary exists, content is inserted immediately
after the marker line (not at document end), so successive patches prepend. -/
theorem c6_header_patch_cumulative :
    (∀ pre M mid post A' B',
      leadsWith hhStr M = true →
      strFind (pre ++ M ++ nlStr ++ mid ++ nlStr ++ dashesStr ++ post) M
        = some pre.length →
      findFromIdx (pre ++ M ++ nlStr ++ mid ++ nlStr ++ dashesStr ++ post)
        nlStr pre.length = some (pre.length + M.length) →
      strFind (mid ++ nlStr ++ dashesStr ++ post) nlDashes = some mid.length →
      (∀ n, strFind (mid ++ nlStr ++ dashesStr ++ post) nlH2 = some n →
        mid.length < n) →
      strFind (pre ++ M ++ nlStr ++ (mid ++ nlStr ++ A') ++ nlStr ++ dashesStr ++ post)
        M = some pre.length →
      findFromIdx (pre ++ M ++ nlStr ++ (mid ++ nlStr ++ A') ++ nlStr ++ dashesStr ++ post)
        nlStr pre.length = some (pre.length + M.length) →
      strFind ((mid ++ nlStr ++ A') ++ nlStr ++ dashesStr ++ post) nlDashes
        = some (mid ++ nlStr ++ A').length →
      (∀ n, strFind ((mid ++ nlStr ++ A') ++ nlStr ++ dashesStr ++ post) nlH2
        = some n → (mid ++ nlStr ++ A').length < n) →
      insert_at_marker (pre ++ M ++ nlStr ++ mid ++ nlStr ++ dashesStr ++ post) M
          (A' ++ nlStr)
        = some (pre ++ M ++ nlStr ++ (mid ++ nlStr ++ A') ++ nlStr ++ dashesStr ++ post)
      ∧ insert_at_marker
          (pre ++ M ++ nlStr ++ (mid ++ nlStr ++ A') ++ nlStr ++ dashesStr ++ post) M
          (B' ++ nlStr)
        = some (pre ++ M ++ nlStr ++ mid ++ nlStr ++ A' ++ nlStr ++ B' ++ nlStr
            ++ dashesStr ++ post))
    ∧ (∀ pre M mid post A' B',
      leadsWith hhStr M = true →
      strFind (pre ++ M ++ nlStr ++ mid ++ nlStr ++ h2Str ++ post) M
        = some pre.length →
      findFromIdx (pre ++ M ++ nlStr ++ mid ++ nlStr ++ h2Str ++ post)
        nlStr pre.length = some (pre.length + M.length) →
      (∀ d, strFind (mid ++ nlStr ++ h2Str ++ post) nlDashes = some d →
        ¬ d < mid.length) →
      strFind (mid ++ nlStr ++ h2Str ++ post) nlH2 = some mid.length →
      strFind (pre ++ M ++ nlStr ++ (mid ++ nlStr ++ A') ++ nlStr ++ h2Str ++ post)
        M = some pre.length →
      findFromIdx (pre ++ M ++ nlStr ++ (mid ++ nlStr ++ A') ++ nlStr ++ h2Str ++ post)
        nlStr pre.length = some (pre.length + M.length) →
      (∀ d, strFind ((mid ++ nlStr ++ A') ++ nlStr ++ h2Str ++ post) nlDashes
        = some d → ¬ d < (mid ++ nlStr ++ A').length) →
      strFind ((mid ++ nlStr ++ A') ++ nlStr ++ h2Str ++ post) nlH2
        = some (mid ++ nlStr ++ A').length →
      insert_at_marker (pre ++ M ++ nlStr ++ mid ++ nlStr ++ h2Str ++ post) M
          (A' ++ nlStr)
        = some (pre ++ M ++ nlStr ++ (mid ++ nlStr ++ A') ++ nlStr ++ h2Str ++ post)
      ∧ insert_at_marker
          (pre ++ M ++ nlStr ++ (mid ++ nlStr ++ A') ++ nlStr ++ h2Str ++ post) M
          (B' ++ nlStr)
        = some (pre ++ M ++ nlStr ++ mid ++ nlStr ++ A' ++ nlStr ++ B' ++ nlStr
            ++ h2Str ++ post))
    ∧ (∀ pre M tail t, leadsWith hhStr M = true →
      strFind (pre ++ M ++ nlStr ++ tail) M = some pre.length →
      findFromIdx (pre ++ M ++ nlStr ++ tail) nlStr pre.length
        = some (pre.length + M.length) →
      strFind tail nlDashes = none →
      strFind tail nlH2 = none →
      insert_at_marker (pre ++ M ++ nlStr ++ tail) M t
        = some (pre ++ M ++ nlStr ++ t ++ tail)) := by
  refine ⟨?_, ?_, ?_⟩
  · intro pre M mid post A' B' hM h1 h2 h3 h4 h1' h2' h3' h4'
    constructor
    · have h := header_insert_before_divider pre M mid post (A' ++ nlStr) hM h1 h2 h3 h4
      rw [h]
      simp [List.append_assoc]
    · have h := header_insert_before_divider pre M (mid ++ nlStr ++ A') post
        (B' ++ nlStr) hM h1' h2' h3' h4'
      rw [h]
      simp [List.append_assoc]
  · intro pre M mid post A' B' hM h1 h2 h3 h4 h1' h2' h3' h4'
    constructor
    · have h := header_insert_before_heading pre M mid post (A' ++ nlStr) hM h1 h2 h3 h4
      rw [h]
      simp [List.append_assoc]
    · have h := header_insert_before_heading pre M (mid ++ nlStr ++ A') post
        (B' ++ nlStr) hM h1' h2' h3' h4'
      rw [h]
      simp [List.append_assoc]
  · intro pre M tail t hM h1 h2 h3 h4
    exact header_insert_no_boundary pre M tail t hM h1 h2 h3 h4

/-- C6 witness: a divider-terminated double patch on a concrete document
that also has a later "## " heading (cumulative, A then B, inserted before
the divider), a heading-terminated double patch (cumulative, inserted before
the heading), and the boundary-free prepending case. -/
theorem c6_witness :
    (insert_at_marker (("pre\n").data ++ ("## Log").data ++ nlStr ++ ("x").data
        ++ nlStr ++ dashesStr ++ ("\n## Next").data) (("## Log").data)
        (("a1").data ++ nlStr)
      = some (("pre\n").data ++ ("## Log").data ++ nlStr
          ++ (("x").data ++ nlStr ++ ("a1").data) ++ nlStr ++ dashesStr
          ++ ("\n## Next").data)
      ∧ insert_at_marker (("pre\n").data ++ ("## Log").data ++ nlStr
          ++ (("x").data ++ nlStr ++ ("a1").data) ++ nlStr ++ dashesStr
          ++ ("\n## Next").data) (("## Log").data) (("b1").data ++ nlStr)
        = some (("pre\n").data ++ ("## Log").data ++ nlStr ++ ("x").data ++ nlStr
            ++ ("a1").data ++ nlStr ++ ("b1").data ++ nlStr ++ dashesStr
            ++ ("\n## Next").data))
    ∧ (insert_at_marker (("pre\n").data ++ ("## Log").data ++ nlStr ++ ("y").data
        ++ nlStr ++ h2Str ++ ("Next\nz").data) (("## Log").data)
        (("a1").data ++ nlStr)
      = some (("pre\n").data ++ ("## Log").data ++ nlStr
          ++ (("y").data ++ nlStr ++ ("a1").data) ++ nlStr ++ h2Str
          ++ ("Next\nz").data)
      ∧ insert_at_marker (("pre\n").data ++ ("## Log").data ++ nlStr
          ++ (("y").data ++ nlStr ++ ("a1").data) ++ nlStr ++ h2Str
          ++ ("Next\nz").data) (("## Log").data) (("b1").data ++ nlStr)
        = some (("pre\n").data ++ ("## Log").data ++ nlStr ++ ("y").data ++ nlStr
            ++ ("a1").data ++ nlStr ++ ("b1").data ++ nlStr ++ h2Str
            ++ ("Next\nz").data))
    ∧ insert_at_marker (("pre\n").data ++ ("## Log").data ++ nlStr ++ ("end").data)
        (("## Log").data) (("t1\n").data)
      = some (("pre\n").data ++ ("## Log").data ++ nlStr ++ ("t1\n").data
          ++ ("end").data) := by
  refine ⟨?_, ?_, ?_⟩
  · refine c6_header_patch_cumulative.1 (("pre\n").data) (("## Log").data)
      (("x").data) (("\n## Next").data) (("a1").data) (("b1").data)
      (by decide) (by decide) (by decide) (by decide) ?_
      (by decide) (by decide) (by decide) ?_
    · intro n hn
      rw [show strFind ((("x").data) ++ nlStr ++ dashesStr ++ (("\n## Next").data))
        nlH2 = some 5 from by decide] at hn
      cases hn
      decide
    · intro n hn
      rw [show strFind (((("x").data) ++ nlStr ++ (("a1").data)) ++ nlStr
        ++ dashesStr ++ (("\n## Next").data)) nlH2 = some 8 from by decide] at hn
      cases hn
      decide
  · refine c6_header_patch_cumulative.2.1 (("pre\n").data) (("## Log").data)
      (("y").data) (("Next\nz").data) (("a1").data) (("b1").data)
      (by decide) (by decide) (by decide) ?_ (by decide)
      (by decide) (by decide) ?_ (by decide)
    · intro d hd
      rw [show strFind ((("y").data) ++ nlStr ++ h2Str ++ (("Next\nz").data))
        nlDashes = none from by decide] at hd
      cases hd
    · intro d hd
      rw [show strFind (((("y").data) ++ nlStr ++ (("a1").data)) ++ nlStr
        ++ h2Str ++ (("Next\nz").data)) nlDashes = none from by decide] at hd
      cases hd
  · exact c6_header_patch_cumulative.2.2 (("pre\n").data) (("## Log").data)
      (("end").data) (("t1\n").data)
      (by decide) (by decide) (by decide) (by decide) (by decide)

/-- C1: an acknowledge request is issued only when some write attempt
verified — every fetched item's note was found in that attempt's re-read
content; when every attempt fails (write exception or verification
mismatch) `sync_list` returns failure without requesting any acknowledge;
and the script main, given a failed update, exits 1 without acknowledging. -/
theorem c1_ack_only_after_verified_write :
    (∀ entries (noteExists : Bool) content marker fmt env (ackOk : Bool),
      (sync_list entries noteExists content marker fmt env ackOk).ackRequested ≠ [] →
      ∃ k, 1 ≤ k ∧ k ≤ RETRY_ATTEMPTS ∧ env.writeOk k = true ∧
        ∀ e ∈ entries, containsSub (env.reread k) e.note = true)
    ∧ (∀ entries (noteExists : Bool) content marker fmt env (ackOk : Bool),
      (∀ k, 1 ≤ k → k ≤ RETRY_ATTEMPTS →
        env.writeOk k = false ∨ ∃ e ∈ entries, containsSub (env.reread k) e.note = false) →
      entries ≠ [] →
      (sync_list entries noteExists content marker fmt env ackOk).success = false ∧
        (sync_list entries noteExists content marker fmt env ackOk).ackRequested = [])
    ∧ (∀ writtenIds (ackOk : Bool), script_main_exit false writtenIds ackOk = (1, [])) := by
  refine ⟨?_, ?_, fun writtenIds ackOk => rfl⟩
  · intro entries noteExists content marker fmt env ackOk hack
    by_cases hne : entries = []
    · subst hne; simp [sync_list] at hack
    by_cases hnx : noteExists = false
    · simp [sync_list, hne, hnx] at hack
    have hnx' : noteExists = true := by revert hnx; cases noteExists <;> simp
    subst hnx'
    cases hins : insert_at_marker content marker (syncEntriesText fmt entries) with
    | none => simp [sync_list, hne, hins] at hack
    | some nc =>
      by_cases hlr : (writeRetryLoop env ((sortByTs entries).map (fun e => e.note))
          nc 1 RETRY_ATTEMPTS).1 = true
      · obtain ⟨k, hk1, hk2, hw, hm⟩ := writeRetryLoop_ok_verified env
          ((sortByTs entries).map (fun e => e.note)) nc RETRY_ATTEMPTS 1 hlr
        refine ⟨k, hk1, by omega, hw, ?_⟩
        intro e he
        have hnote : e.note ∈ (sortByTs entries).map (fun e => e.note) :=
          List.mem_map_of_mem _ (mem_sortByTs.mpr he)
        have hx := filter_nil_all_false hm e.note hnote
        simpa using hx
      · exfalso
        apply hack
        simp [sync_list, hne, hins, hlr]
  · intro entries noteExists content marker fmt env ackOk hall hne
    by_cases hnx : noteExists = false
    · simp [sync_list, hne, hnx]
    have hnx' : noteExists = true := by revert hnx; cases noteExists <;> simp
    subst hnx'
    cases hins : insert_at_marker content marker (syncEntriesText fmt entries) with
    | none => simp [sync_list, hne, hins]
    | some nc =>
      have hlr : ¬ (writeRetryLoop env ((sortByTs entries).map (fun e => e.note))
          nc 1 RETRY_ATTEMPTS).1 = true := by
        intro h
        obtain ⟨k, hk1, hk2, hw, hm⟩ := writeRetryLoop_ok_verified env
          ((sortByTs entries).map (fun e => e.note)) nc RETRY_ATTEMPTS 1 h
        rcases hall k hk1 (by omega) with hbad | ⟨e, he, hcs⟩
        · rw [hw] at hbad; exact absurd hbad (by simp)
        · have hnote : e.note ∈ (sortByTs entries).map (fun e => e.note) :=
            List.mem_map_of_mem _ (mem_sortByTs.mpr he)
          have hx := filter_nil_all_false hm e.note hnote
          simp [hcs] at hx
      constructor
      · simp [sync_list, hne, hins, hlr]
      · simp [sync_list, hne, hins, hlr]

/-- C1 witness: a verifying environment yields a verified attempt behind the
acknowledge request; a never-verifying environment yields failure with no
acknowledge; a failed update makes the script main exit 1. -/
theorem c1_witness :
    (∃ k, 1 ≤ k ∧ k ≤ RETRY_ATTEMPTS ∧ envGood.writeOk k = true ∧
      ∀ e ∈ [exEntry1], containsSub (envGood.reread k) e.note = true)
    ∧ ((sync_list [exEntry1] true exDocW exMarkerW Fmt.blockquote envBad true).success
        = false
      ∧ (sync_list [exEntry1] true exDocW exMarkerW Fmt.blockquote envBad true).ackRequested
        = [])
    ∧ script_main_exit false [("r1").data] true = (1, []) := by
  refine ⟨?_, ?_, c1_ack_only_after_verified_write.2.2 ([("r1").data]) true⟩
  · exact c1_ack_only_after_verified_write.1 [exEntry1] true exDocW exMarkerW
      Fmt.blockquote envGood true (by decide)
  · refine c1_ack_only_after_verified_write.2.1 [exEntry1] true exDocW exMarkerW
      Fmt.blockquote envBad true (fun k _ _ => Or.inr ⟨exEntry1, by decide, ?_⟩)
      (by decide)
    have h : envBad.reread k = exChanged := rfl
    rw [h]
    decide

/-- C2 (counterexample): the document changes underneath between attempt 1
and its verification read, the verification fails, and attempt 2 rewrites
the ORIGINAL patched content — not the patch recomputed against the re-read
content, which would differ. -/
theorem c2_counterexample :
    (sync_list [exEntry1] true exDocW exMarkerW Fmt.blockquote envFlaky true).writes
      = [(1, exPatchedW), (2, exPatchedW)] ∧
      insert_at_marker exChanged exMarkerW (syncEntriesText Fmt.blockquote [exEntry1])
        = some (("**W:**\n> pay rent\nCHANGED\n").data) ∧
      exPatchedW ≠ ("**W:**\n> pay rent\nCHANGED\n").data := by
  refine ⟨by decide, by decide, by decide⟩

/-- C2 (amended): the verified writer makes up to 3 total write attempts,
and on a verification mismatch retries writing the same initially patched
content — the patch is not recomputed against the re-read content; a write
failing verification on attempt 1 but verifying on attempt 2 returns overall
success, and exhausting all 3 attempts returns failure with nothing
acknowledged. -/
theorem c2_retry_bound_and_same_patch :
    (∀ entries (noteExists : Bool) content marker fmt env (ackOk : Bool),
      (sync_list entries noteExists content marker fmt env ackOk).writes.length
        ≤ RETRY_ATTEMPTS ∧
      ∀ p ∈ (sync_list entries noteExists content marker fmt env ackOk).writes,
        insert_at_marker content marker (syncEntriesText fmt entries) = some p.2)
    ∧ (∀ entries content marker fmt env nc,
      entries ≠ [] →
      insert_at_marker content marker (syncEntriesText fmt entries) = some nc →
      env.writeOk 1 = true → env.writeOk 2 = true →
      (∃ e ∈ entries, containsSub (env.reread 1) e.note = false) →
      (∀ e ∈ entries, containsSub (env.reread 2) e.note = true) →
      (sync_list entries true content marker fmt env true).success = true ∧
        (sync_list entries true content marker fmt env true).writes
          = [(1, nc), (2, nc)])
    ∧ (∀ entries content marker fmt env (ackOk : Bool) nc,
      entries ≠ [] →
      insert_at_marker content marker (syncEntriesText fmt entries) = some nc →
      (∀ k, 1 ≤ k → k ≤ RETRY_ATTEMPTS → env.writeOk k = true) →
      (∀ k, 1 ≤ k → k ≤ RETRY_ATTEMPTS →
        ∃ e ∈ entries, containsSub (env.reread k) e.note = false) →
      (sync_list entries true content marker fmt env ackOk).success = false ∧
        (sync_list entries true content marker fmt env ackOk).writes
          = [(1, nc), (2, nc), (3, nc)] ∧
        (sync_list entries true content marker fmt env ackOk).ackRequested = []) := by
  refine ⟨?_, ?_, ?_⟩
  · intro entries noteExists content marker fmt env ackOk
    by_cases hne : entries = []
    · subst hne; simp [sync_list, RETRY_ATTEMPTS]
    by_cases hnx : noteExists = false
    · simp [sync_list, hne, hnx, RETRY_ATTEMPTS]
    have hnx' : noteExists = true := by revert hnx; cases noteExists <;> simp
    subst hnx'
    cases hins : insert_at_marker content marker (syncEntriesText fmt entries) with
    | none => simp [sync_list, hne, hins, RETRY_ATTEMPTS]
    | some nc =>
      have hwr : (sync_list entries true content marker fmt env ackOk).writes
          = (writeRetryLoop env ((sortByTs entries).map (fun e => e.note))
              nc 1 RETRY_ATTEMPTS).2 := by
        by_cases hlr : (writeRetryLoop env ((sortByTs entries).map (fun e => e.note))
            nc 1 RETRY_ATTEMPTS).1 = true
        · by_cases hak : ackOk = true
          · simp [sync_list, hne, hins, hlr, hak]
          · have hak' : ackOk = false := by revert hak; cases ackOk <;> simp
            simp [sync_list, hne, hins, hlr, hak']
        · simp [sync_list, hne, hins, hlr]
      rw [hwr]
      constructor
      · exact writeRetryLoop_writes_length env _ nc RETRY_ATTEMPTS 1
      · intro p hp
        have hpnc : p.2 = nc :=
          writeRetryLoop_writes_newContent env _ nc RETRY_ATTEMPTS 1 p hp
        rw [hpnc]
  · intro entries content marker fmt env nc hne hins hw1 hw2 hmiss hfound
    obtain ⟨e1, he1, hcs1⟩ := hmiss
    have hm1 : ((sortByTs entries).map (fun e => e.note)).filter
        (fun n => !containsSub (env.reread 1) n) ≠ [] := by
      intro hz
      have hnote : e1.note ∈ (sortByTs entries).map (fun e => e.note) :=
        List.mem_map_of_mem _ (mem_sortByTs.mpr he1)
      have hx := filter_nil_all_false hz e1.note hnote
      simp [hcs1] at hx
    have hm2 : ((sortByTs entries).map (fun e => e.note)).filter
        (fun n => !containsSub (env.reread 2) n) = [] := by
      apply List.filter_eq_nil_iff.mpr
      intro n hn
      obtain ⟨e, he, hne2⟩ := List.mem_map.mp hn
      have := hfound e (mem_sortByTs.mp he)
      simp [← hne2, this]
    have h1 : writeRetryLoop env ((sortByTs entries).map (fun e => e.note)) nc 1 3
        = ((writeRetryLoop env ((sortByTs entries).map (fun e => e.note)) nc 2 2).1,
            (1, nc) :: (writeRetryLoop env ((sortByTs entries).map (fun e => e.note))
              nc 2 2).2) :=
      writeRetryLoop_step_fail env _ nc 1 2 hw1 hm1 (by decide)
    have h2 : writeRetryLoop env ((sortByTs entries).map (fun e => e.note)) nc 2 2
        = (true, [(2, nc)]) :=
      writeRetryLoop_step_ok env _ nc 2 1 hw2 hm2
    have e1' : writeRetryLoop env ((sortByTs entries).map (fun e => e.note)) nc 1
        RETRY_ATTEMPTS = (true, [(1, nc), (2, nc)]) := by
      rw [show RETRY_ATTEMPTS = 3 from rfl, h1, h2]
    constructor
    · simp [sync_list, hne, hins, e1']
    · simp [sync_list, hne, hins, e1']
  · intro entries content marker fmt env ackOk nc hne hins hwall hfail
    have hm : ∀ k, 1 ≤ k → k ≤ RETRY_ATTEMPTS →
        ((sortByTs entries).map (fun e => e.note)).filter
          (fun n => !containsSub (env.reread k) n) ≠ [] := by
      intro k hk1 hk2 hz
      obtain ⟨e1, he1, hcs1⟩ := hfail k hk1 hk2
      have hnote : e1.note ∈ (sortByTs entries).map (fun e => e.note) :=
        List.mem_map_of_mem _ (mem_sortByTs.mpr he1)
      have hx := filter_nil_all_false hz e1.note hnote
      simp [hcs1] at hx
    have h1 : writeRetryLoop env ((sortByTs entries).map (fun e => e.note)) nc 1 3
        = ((writeRetryLoop env ((sortByTs entries).map (fun e => e.note)) nc 2 2).1,
            (1, nc) :: (writeRetryLoop env ((sortByTs entries).map (fun e => e.note))
              nc 2 2).2) :=
      writeRetryLoop_step_fail env _ nc 1 2 (hwall 1 (by decide) (by decide))
        (hm 1 (by decide) (by decide)) (by decide)
    have h2 : writeRetryLoop env ((sortByTs entries).map (fun e => e.note)) nc 2 2
        = ((writeRetryLoop env ((sortByTs entries).map (fun e => e.note)) nc 3 1).1,
            (2, nc) :: (writeRetryLoop env ((sortByTs entries).map (fun e => e.note))
              nc 3 1).2) :=
      writeRetryLoop_step_fail env _ nc 2 1 (hwall 2 (by decide) (by decide))
        (hm 2 (by decide) (by decide)) (by decide)
    have h3 : writeRetryLoop env ((sortByTs entries).map (fun e => e.note)) nc 3 1
        = (false, [(3, nc)]) :=
      writeRetryLoop_step_fail_last env _ nc 3 0 (hwall 3 (by decide) (by decide))
        (hm 3 (by decide) (by decide)) (by decide)
    have e1' : writeRetryLoop env ((sortByTs entries).map (fun e => e.note)) nc 1
        RETRY_ATTEMPTS = (false, [(1, nc), (2, nc), (3, nc)]) := by
      rw [show RETRY_ATTEMPTS = 3 from rfl, h1, h2, h3]
    refine ⟨?_, ?_, ?_⟩
    · simp [sync_list, hne, hins, e1']
    · simp [sync_list, hne, hins, e1']
    · simp [sync_list, hne, hins, e1']

/-- C2 witness: the write-bound at a concrete run; an environment whose
verification fails once then succeeds gives overall success with two writes
of the same patch; an environment that never verifies exhausts all three
attempts and fails. -/
theorem c2_witness :
    ((sync_list [exEntry1] true exDocW exMarkerW Fmt.blockquote envFlaky true).writes.length
      ≤ RETRY_ATTEMPTS) ∧
    ((sync_list [exEntry1] true exDocW exMarkerW Fmt.blockquote envFlaky true).success
        = true ∧
      (sync_list [exEntry1] true exDocW exMarkerW Fmt.blockquote envFlaky true).writes
        = [(1, exPatchedW), (2, exPatchedW)]) ∧
    ((sync_list [exEntry1] true exDocW exMarkerW Fmt.blockquote envBad true).success
        = false ∧
      (sync_list [exEntry1] true exDocW exMarkerW Fmt.blockquote envBad true).writes
        = [(1, exPatchedW), (2, exPatchedW), (3, exPatchedW)] ∧
      (sync_list [exEntry1] true exDocW exMarkerW Fmt.blockquote envBad true).ackRequested
        = []) := by
  refine ⟨(c2_retry_bound_and_same_patch.1 [exEntry1] true exDocW exMarkerW
    Fmt.blockquote envFlaky true).1, ?_, ?_⟩
  · exact c2_retry_bound_and_same_patch.2.1 [exEntry1] exDocW exMarkerW
      Fmt.blockquote envFlaky exPatchedW (by decide) (by decide) (by decide)
      (by decide) ⟨exEntry1, by decide, by decide⟩ (by decide)
  · refine c2_retry_bound_and_same_patch.2.2 [exEntry1] exDocW exMarkerW
      Fmt.blockquote envBad true exPatchedW (by decide) (by decide)
      (fun k _ _ => rfl) (fun k _ _ => ⟨exEntry1, by decide, ?_⟩)
    have h : envBad.reread k = exChanged := rfl
    rw [h]
    decide

/-- C3 (counterexample): a run whose write verifies on attempt 1 but whose
acknowledge call fails returns failure — `sync_list` yields success=false
(with the synced count and the attempted acknowledge ids), and the script
main exits 1 — contradicting the claim that the section outcome stays
successful with the acknowledge failure downgraded to a warning. -/
theorem c3_counterexample :
    sync_list [exEntry1] true exDocW exMarkerW Fmt.blockquote envGood false
      = ⟨false, 1, [(1, exPatchedW)], [("r1").data]⟩ ∧
      script_main_exit true [("r1").data] false = (1, [("r1").data]) := by
  refine ⟨by decide, rfl⟩

/-- C3 (amended): an acknowledge failure after a successful verified write is
reported as a section failure: `sync_list` returns success=false while still
reporting the count of written items, the single verified write, and the ids
it attempted to acknowledge; the script mains exit 1 in the same situation.
The content itself remains persisted — the write had already verified. -/
theorem c3_ack_failure_fails_section :
    (∀ entries content marker fmt env nc,
      entries ≠ [] →
      insert_at_marker content marker (syncEntriesText fmt entries) = some nc →
      env.writeOk 1 = true →
      (∀ e ∈ entries, containsSub (env.reread 1) e.note = true) →
      (sync_list entries true content marker fmt env false).success = false ∧
        (sync_list entries true content marker fmt env false).count
          = entries.length ∧
        (sync_list entries true content marker fmt env false).writes = [(1, nc)] ∧
        (sync_list entries true content marker fmt env false).ackRequested
          = (sortByTs entries).map (fun e => e.rid))
    ∧ (∀ writtenIds, writtenIds ≠ [] →
        script_main_exit true writtenIds false = (1, writtenIds)) := by
  constructor
  · intro entries content marker fmt env nc hne hins hw1 hfound
    have hm1 : ((sortByTs entries).map (fun e => e.note)).filter
        (fun n => !containsSub (env.reread 1) n) = [] := by
      apply List.filter_eq_nil_iff.mpr
      intro n hn
      obtain ⟨e, he, hne2⟩ := List.mem_map.mp hn
      have := hfound e (mem_sortByTs.mp he)
      simp [← hne2, this]
    have h1 : writeRetryLoop env ((sortByTs entries).map (fun e => e.note)) nc 1 3
        = (true, [(1, nc)]) :=
      writeRetryLoop_step_ok env _ nc 1 2 hw1 hm1
    have e1' : writeRetryLoop env ((sortByTs entries).map (fun e => e.note)) nc 1
        RETRY_ATTEMPTS = (true, [(1, nc)]) := by
      rw [show RETRY_ATTEMPTS = 3 from rfl, h1]
    refine ⟨?_, ?_, ?_, ?_⟩
    · simp [sync_list, hne, hins, e1']
    · simp [sync_list, hne, hins, e1', sortByTs_length]
    · simp [sync_list, hne, hins, e1']
    · simp [sync_list, hne, hins, e1']
  · intro writtenIds hne
    simp [script_main_exit, hne]

/-- C3 witness: the concrete verified-write-then-failed-acknowledge run. -/
theorem c3_witness :
    ((sync_list [exEntry1] true exDocW exMarkerW Fmt.blockquote envGood false).success
        = false ∧
      (sync_list [exEntry1] true exDocW exMarkerW Fmt.blockquote envGood false).count
        = ([exEntry1] : List Entry).length ∧
      (sync_list [exEntry1] true exDocW exMarkerW Fmt.blockquote envGood false).writes
        = [(1, exPatchedW)] ∧
      (sync_list [exEntry1] true exDocW exMarkerW Fmt.blockquote envGood false).ackRequested
        = (sortByTs [exEntry1]).map (fun e => e.rid)) ∧
    script_main_exit true [("r1").data] false = (1, [("r1").data]) :=
  ⟨c3_ack_failure_fails_section.1 [exEntry1] exDocW exMarkerW Fmt.blockquote
      envGood exPatchedW (by decide) (by decide) (by decide) (by decide),
    c3_ack_failure_fails_section.2 ([("r1").data]) (by decide)⟩

/-- C4: the bounded (3-slot) priorities patch accepts at most the first 3
entries in ascending timestamp order and acknowledges exactly those; the
rendered section is always 3 slots, the missing ones padded with empty
placeholders; and re-patching replaces the whole owned span wholesale (a
later patch with one item alone yields that item plus two placeholders, not
an append), shown on the spec's concrete example. -/
theorem c4_bounded_three_slot_patch :
    (∀ entries content res,
      update_priorities_patch entries content = some res →
      res.2 = ((sortByTs entries).take 3).map (fun e => e.rid) ∧
        res.2.length = min 3 entries.length)
    ∧ (∀ entries, List.Sorted tsLe (sortByTs entries) ∧
        List.Perm (sortByTs entries) entries)
    ∧ (∀ a b : Entry, prioritiesLines [a, b]
        = [priorityLine 1 a.note, priorityLine 2 b.note, natStr 3 ++ padTok])
    ∧ (update_priorities_patch [entB, entA] priDoc0
        = some (priDoc1, [("a").data, ("b").data]) ∧
      update_priorities_patch [entC] priDoc1
        = some (priDoc2, [("c").data]))
    ∧ (∀ writtenIds (ackOk : Bool),
        (script_main_exit true writtenIds ackOk).2 = writtenIds) := by
  refine ⟨?_, fun entries => ⟨sortByTs_sorted entries, sortByTs_perm entries⟩,
    fun a b => rfl, ⟨by decide, by decide⟩, ?_⟩
  · intro entries content res hres
    cases hf : strFind content priMarker with
    | none => simp [update_priorities_patch, hf] at hres
    | some mpos =>
      simp only [update_priorities_patch, hf, Option.some.injEq] at hres
      subst hres
      constructor
      · rfl
      · simp [sortByTs_length]
  · intro writtenIds ackOk
    by_cases hi : writtenIds = []
    · subst hi; simp [script_main_exit]
    · cases ackOk <;> simp [script_main_exit, hi]

/-- C4 witness: the written-id law instantiated on the concrete two-entry
batch. -/
theorem c4_witness :
    ((priDoc1, [("a").data, ("b").data]).2
        = ((sortByTs [entB, entA]).take 3).map (fun e => e.rid) ∧
      (priDoc1, [("a").data, ("b").data]).2.length
        = min 3 ([entB, entA] : List Entry).length) :=
  c4_bounded_three_slot_patch.1 [entB, entA] priDoc0
    (priDoc1, [("a").data, ("b").data]) (by decide)

/-- C9: a section not scheduled "always" that is already recorded processed
today is skipped by a non-forced run: `sync_list` is never invoked for it
(so no fetch, write or acknowledge can happen for it) and the skip is
counted as a success. -/
theorem c9_processed_section_skipped :
    (∀ known (syncOut : Str → Bool × Nat) k cfg ks processed,
      lookupCfg known k = some cfg → cfg.schedule ≠ alwaysS → k ∈ processed →
      k ∉ (run_lists known false syncOut processed ks).synced)
    ∧ (∀ known (syncOut : Str → Bool × Nat) k cfg processed,
      lookupCfg known k = some cfg → cfg.schedule ≠ alwaysS → k ∈ processed →
      run_lists known false syncOut processed [k] = ⟨1, 0, []⟩) := by
  constructor
  · intro known syncOut k cfg ks
    induction ks with
    | nil => intro processed _ _ _; simp [run_lists]
    | cons k' ks ih =>
      intro processed hcfg hsch hmem
      cases hl : lookupCfg known k' with
      | none =>
        have hsy : (run_lists known false syncOut processed (k' :: ks)).synced
            = (run_lists known false syncOut processed ks).synced := by
          simp [run_lists, hl]
        rw [hsy]
        exact ih processed hcfg hsch hmem
      | some cfg' =>
        by_cases hskip : cfg'.schedule ≠ alwaysS ∧ k' ∈ processed
        · obtain ⟨hsch', hmem'⟩ := hskip
          have hsy : (run_lists known false syncOut processed (k' :: ks)).synced
              = (run_lists known false syncOut processed ks).synced := by
            simp [run_lists, hl, hsch', hmem']
          rw [hsy]
          exact ih processed hcfg hsch hmem
        · have hkk : k ≠ k' := by
            intro he
            subst he
            rw [hcfg] at hl
            injection hl with h2
            subst h2
            exact hskip ⟨hsch, hmem⟩
          by_cases hs : (syncOut k').1 = true
          · have hmem2 : k ∈ (if 0 < (syncOut k').2 ∧ cfg'.schedule ≠ alwaysS
                then k' :: processed else processed) := by
              split
              · exact List.mem_cons_of_mem _ hmem
              · exact hmem
            have hsy : (run_lists known false syncOut processed (k' :: ks)).synced
                = k' :: (run_lists known false syncOut
                    (if 0 < (syncOut k').2 ∧ cfg'.schedule ≠ alwaysS
                      then k' :: processed else processed) ks).synced := by
              simp [run_lists, hl, hs, hskip]
            rw [hsy]
            simp only [List.mem_cons, not_or]
            exact ⟨hkk, ih _ hcfg hsch hmem2⟩
          · have hsy : (run_lists known false syncOut processed (k' :: ks)).synced
                = k' :: (run_lists known false syncOut processed ks).synced := by
              simp [run_lists, hl, hs, hskip]
            rw [hsy]
            simp only [List.mem_cons, not_or]
            exact ⟨hkk, ih processed hcfg hsch hmem⟩
  · intro known syncOut k cfg processed hcfg hsch hmem
    have h0 : run_lists known false syncOut processed ([] : List Str) = ⟨0, 0, []⟩ :=
      rfl
    simp [run_lists, hcfg, hsch, hmem, h0]

/-- C9 witness: a concrete morning list already recorded processed today is
not synced and the run counts one success. -/
theorem c9_witness :
    (("priorities").data ∉ (run_lists [(("priorities").data, ⟨("morning").data⟩)]
        false (fun _ => (true, 1)) [("priorities").data]
        [("priorities").data]).synced) ∧
      run_lists [(("priorities").data, ⟨("morning").data⟩)] false
        (fun _ => (true, 1)) [("priorities").data] [("priorities").data]
        = ⟨1, 0, []⟩ :=
  ⟨c9_processed_section_skipped.1 [(("priorities").data, ⟨("morning").data⟩)]
      (fun _ => (true, 1)) (("priorities").data) ⟨("morning").data⟩
      [("priorities").data] [("priorities").data] (by decide) (by decide) (by decide),
    c9_processed_section_skipped.2 [(("priorities").data, ⟨("morning").data⟩)]
      (fun _ => (true, 1)) (("priorities").data) ⟨("morning").data⟩
      [("priorities").data] (by decide) (by decide) (by decide)⟩
